import Mathlib

/-!
Verification of the d6r Kubernetes inspection client (`app/kube_client.py`,
exposed through `app/main.py`).

The embedding mirrors the source:
* The resource registry is `KubeClient._get_resource_mapping` translated to a
  literal association list from kind strings to (API group, method base name).
* `_normalize_resource_kind`, `_get_api_client_and_resource_type`,
  `get_resources`, `describe_resource` and `get_pod_logs` become Lean
  functions.  Python string primitives (`str.lower`, `str.endswith('s')`,
  `s[:-1]`) are modelled at the character-list level.
* The Kubernetes API client objects are an external collaborator; they are
  modelled as a `Backend` record: which attribute names exist (`getattr`
  succeeding or raising `AttributeError`), and what each dynamic method call
  returns (a result, or a raised exception).  Serialization
  (`sanitize_for_serialization`) is an opaque backend function on documents.
* Each gateway operation returns its result together with a trace of the
  backend interactions it performed, so dispatch claims ("invokes the
  namespaced path, never the all-namespaces path") are statements about the
  trace.
* A `connected : Bool` flag models whether `__init__`/`aconnect` succeeded:
  when connection setup raised, none of the `self.*_api` attributes were
  assigned, so attribute access inside `_get_resource_mapping` raises
  `AttributeError` on every later use.
-/

namespace D6r

/-- The four API client objects held by `KubeClient` (`core_v1_api`,
`apps_v1_api`, `networking_v1_api`, `events_1_api`). -/
inductive ApiGroup
  | core
  | apps
  | networking
  | events
deriving DecidableEq, Repr

/-- A Python exception as far as the gateway's control flow distinguishes it:
`except AttributeError` branches treat `attributeError` specially, while
`except Exception` catches both constructors.  The payload is `str(e)`. -/
inductive PyErr
  | attributeError (msg : String)
  | other (msg : String)
deriving DecidableEq, Repr

/-- Python `str(e)` on a caught exception. -/
def PyErr.str : PyErr → String
  | .attributeError m => m
  | .other m => m

/-- A serializable document: the shape `sanitize_for_serialization` produces
(nested dicts, lists and primitives).  `describe_resource`'s error value
`{"error": ...}` is `Doc.obj [("error", Doc.str ...)]`. -/
inductive Doc
  | null
  | bool (b : Bool)
  | num (n : Int)
  | str (s : String)
  | arr (items : List Doc)
  | obj (fields : List (String × Doc))
deriving Inhabited, Repr

/-- A backend method call actually performed (the `getattr` succeeded and the
bound method was invoked with the recorded arguments). -/
inductive Call
  | list (g : ApiGroup) (method : String) (ns : Option String)
  | read (g : ApiGroup) (method : String) (name : String) (ns : Option String)
  | podLog (name ns : String) (container : Option String) (pretty : Bool) (tailLines : Int)
deriving DecidableEq, Repr

/-- One backend interaction: either `getattr` raised `AttributeError` for a
method name (so nothing was invoked under that name), or a method was invoked. -/
inductive Event
  | getattrFail (g : ApiGroup) (method : String)
  | invoked (c : Call)
deriving DecidableEq, Repr

/-- Modelled from the spec: the read-only cluster API collaborator (spec §6).
`hasAttr` says which method names exist on each API client object (`getattr`
raises `AttributeError` otherwise); `listCall`/`readCall` give the outcome of
invoking a list/read method (the `Option String` is the `namespace=` keyword
argument, `none` when not passed); `podLogCall` is `read_namespaced_pod_log`
with (name, namespace, container, pretty, tail_lines); `sanitize` is
`ApiClient.sanitize_for_serialization`. -/
structure Backend where
  hasAttr : ApiGroup → String → Bool
  listCall : ApiGroup → String → Option String → Except PyErr (List Doc)
  readCall : ApiGroup → String → String → Option String → Except PyErr Doc
  podLogCall : String → String → Option String → Bool → Int → Except PyErr String
  sanitize : Doc → Doc

/-- Python `s.lower()` (all inputs of interest are ASCII). -/
def pyLower (s : String) : String := ⟨s.data.map Char.toLower⟩

/-- Python `s.endswith('s')`. -/
def pyEndsWithS (s : String) : Bool := s.data.getLast? == some 's'

/-- Python `s[:-1]` (drop the last character; the empty string maps to itself). -/
def pyDropLast (s : String) : String := ⟨s.data.dropLast⟩

/-- `KubeClient._get_resource_mapping`: the registry dict, in source order. -/
def get_resource_mapping : List (String × ApiGroup × String) :=
  [("pod", .core, "pod"),
   ("service", .core, "service"),
   ("configmap", .core, "config_map"),
   ("secret", .core, "secret"),
   ("namespace", .core, "namespace"),
   ("persistentvolumeclaim", .core, "persistent_volume_claim"),
   ("persistentvolume", .core, "persistent_volume"),
   ("serviceaccount", .core, "service_account"),
   ("node", .core, "node"),
   ("deployment", .apps, "deployment"),
   ("replicaset", .apps, "replica_set"),
   ("statefulset", .apps, "stateful_set"),
   ("daemonset", .apps, "daemon_set"),
   ("ingress", .networking, "ingress"),
   ("ingressclass", .networking, "ingress_class"),
   ("networkpolicy", .networking, "network_policy"),
   ("event", .events, "event")]

/-- Dictionary lookup `resources[resource_kind]` as an `Option`. -/
def lookupMapping (k : String) : Option (ApiGroup × String) :=
  (get_resource_mapping.find? (fun p => p.1 == k)).map (fun p => p.2)

/-- Python `resource_kind in resources` (dict key membership). -/
def containsKey (k : String) : Bool :=
  (lookupMapping k).isSome

/-- `KubeClient._normalize_resource_kind`: lowercase, then strip exactly one
trailing `'s'` when the lowercased string ends in `'s'` and is not already a
registry key. -/
def normalize_resource_kind (resource_kind : String) : String :=
  let rk := pyLower resource_kind
  if pyEndsWithS rk && !containsKey rk then pyDropLast rk else rk

/-- `KubeClient._get_api_client_and_resource_type`: normalize, then look up;
`(None, None)` on a miss becomes `none`. -/
def get_api_client_and_resource_type (resource_kind : String) :
    Option (ApiGroup × String) :=
  lookupMapping (normalize_resource_kind resource_kind)

/-- The resolution procedure exactly as the spec words it (§4.1): lowercase;
look up directly; if absent and the string ends with a trailing "s", strip
exactly one trailing "s" and look up again; if still absent, NotFound. -/
def resolveSpec (kind : String) : Option (ApiGroup × String) :=
  let lk := pyLower kind
  match lookupMapping lk with
  | some d => some d
  | none => if pyEndsWithS lk then lookupMapping (pyDropLast lk) else none

/-- `KubeClient.get_resources(resource_kind, namespace=None)`, returning the
result paired with the trace of backend interactions.  `connected = false`
models a client whose connection setup failed: `self.core_v1_api` was never
assigned, so the attribute access inside `_get_resource_mapping` — reached via
`_normalize_resource_kind` on the first line, before the `try` block — raises
`AttributeError`, which nothing in `get_resources` catches.  A falsy namespace
(`None` or `""`) is modelled as `""`.  The inner `try`/`except AttributeError`
around the all-namespaces call falls back to the plain list method; any
exception in the fallback, and any non-`AttributeError` exception, is caught
by the outer `except Exception`, which returns `[]`. -/
def get_resources (connected : Bool) (b : Backend) (resource_kind : String)
    (ns : String) : Except PyErr (List Doc) × List Event :=
  if connected = false then
    (.error (.attributeError "KubeClient object has no attribute core_v1_api"), [])
  else
    let rk := normalize_resource_kind resource_kind
    match get_api_client_and_resource_type rk with
    | none => (.ok [], [])
    | some (g, rt) =>
      if ns ≠ "" ∧ rk ≠ "namespace" then
        let m := "list_namespaced_" ++ rt
        if b.hasAttr g m then
          match b.listCall g m (some ns) with
          | .ok items => (.ok (items.map b.sanitize), [.invoked (.list g m (some ns))])
          | .error _ => (.ok [], [.invoked (.list g m (some ns))])
        else
          (.ok [], [.getattrFail g m])
      else
        let mAll := "list_" ++ rt ++ "_for_all_namespaces"
        let mPlain := "list_" ++ rt
        if b.hasAttr g mAll then
          match b.listCall g mAll none with
          | .ok items => (.ok (items.map b.sanitize), [.invoked (.list g mAll none)])
          | .error (.attributeError _) =>
            if b.hasAttr g mPlain then
              match b.listCall g mPlain none with
              | .ok items =>
                (.ok (items.map b.sanitize),
                 [.invoked (.list g mAll none), .invoked (.list g mPlain none)])
              | .error _ =>
                (.ok [], [.invoked (.list g mAll none), .invoked (.list g mPlain none)])
            else
              (.ok [], [.invoked (.list g mAll none), .getattrFail g mPlain])
          | .error (.other _) => (.ok [], [.invoked (.list g mAll none)])
        else
          if b.hasAttr g mPlain then
            match b.listCall g mPlain none with
            | .ok items =>
              (.ok (items.map b.sanitize),
               [.getattrFail g mAll, .invoked (.list g mPlain none)])
            | .error _ =>
              (.ok [], [.getattrFail g mAll, .invoked (.list g mPlain none)])
          else
            (.ok [], [.getattrFail g mAll, .getattrFail g mPlain])

/-- The `{"error": f"Failed to describe {kind} {name}: {e}"}` document built in
`describe_resource`'s exception handler. -/
def describeErrorDoc (rk name cause : String) : Doc :=
  .obj [("error", .str ("Failed to describe " ++ rk ++ " " ++ name ++ ": " ++ cause))]

/-- `KubeClient.describe_resource(resource_kind, resource_name, namespace="default")`,
returning the result paired with the trace of backend interactions.  As in
`get_resources`, `connected = false` makes the pre-`try` normalization raise.
Inside the `try`, every exception — including the `AttributeError` from
`getattr` when the built method name does not exist — is caught by
`except Exception` and turned into the error document. -/
def describe_resource (connected : Bool) (b : Backend) (resource_kind resource_name : String)
    (ns : String) : Except PyErr Doc × List Event :=
  if connected = false then
    (.error (.attributeError "KubeClient object has no attribute core_v1_api"), [])
  else
    let rk := normalize_resource_kind resource_kind
    match get_api_client_and_resource_type rk with
    | none => (.ok (.obj [("error", .str ("Unsupported resource kind: " ++ rk))]), [])
    | some (g, rt) =>
      if rk ≠ "namespace" then
        let m := "read_namespaced_" ++ rt
        if b.hasAttr g m then
          match b.readCall g m resource_name (some ns) with
          | .ok r => (.ok (b.sanitize r), [.invoked (.read g m resource_name (some ns))])
          | .error e =>
            (.ok (describeErrorDoc rk resource_name e.str),
             [.invoked (.read g m resource_name (some ns))])
        else
          (.ok (describeErrorDoc rk resource_name
                  ("object has no attribute " ++ m)),
           [.getattrFail g m])
      else
        let m := "read_" ++ rt
        if b.hasAttr g m then
          match b.readCall g m resource_name none with
          | .ok r => (.ok (b.sanitize r), [.invoked (.read g m resource_name none)])
          | .error e =>
            (.ok (describeErrorDoc rk resource_name e.str),
             [.invoked (.read g m resource_name none)])
        else
          (.ok (describeErrorDoc rk resource_name
                  ("object has no attribute " ++ m)),
           [.getattrFail g m])

/-- `KubeClient.get_pod_logs(pod_name, container=None, namespace="default",
tail_lines=100)` — the second (shadowing) definition in the source, which
passes `pretty=True` and `tail_lines`.  The `self.core_v1_api` attribute
access happens inside the `try`, so even an unconnected client soft-fails to
the `"Failed to get logs: ..."` string. -/
def get_pod_logs (connected : Bool) (b : Backend) (pod_name : String)
    (container : Option String) (ns : String) (tail_lines : Int) : String × List Event :=
  if connected = false then
    ("Failed to get logs: KubeClient object has no attribute core_v1_api", [])
  else
    match b.podLogCall pod_name ns container true tail_lines with
    | .ok logs => (logs, [.invoked (.podLog pod_name ns container true tail_lines)])
    | .error e =>
      ("Failed to get logs: " ++ e.str,
       [.invoked (.podLog pod_name ns container true tail_lines)])

/-- Modelled from the spec: the method surface of the real API client objects
for the kinds the claims exercise (spec §4.2.c and §6 — cluster-scoped
resources such as nodes, namespaces and persistent volumes have no namespaced
or all-namespaces variants; namespaced core resources such as pods have
namespaced and all-namespaces list methods and a namespaced read).  Calls
succeed with empty/trivial data; only the dispatch trace matters here. -/
def coreLikeBackend : Backend where
  hasAttr := fun _ m =>
    ["list_namespaced_pod", "list_pod_for_all_namespaces", "read_namespaced_pod",
     "list_namespaced_deployment", "list_deployment_for_all_namespaces",
     "read_namespaced_deployment",
     "list_node", "read_node",
     "list_persistent_volume", "read_persistent_volume",
     "list_namespace", "read_namespace"].contains m
  listCall := fun _ _ _ => .ok []
  readCall := fun _ _ _ _ => .ok (.obj [])
  podLogCall := fun _ _ _ _ _ => .ok "log line"
  sanitize := id

/-- A backend whose every method exists but every invocation raises a
non-`AttributeError` exception (network/auth style failure). -/
def failingCallBackend : Backend where
  hasAttr := fun _ _ => true
  listCall := fun _ _ _ => .error (.other "connection refused")
  readCall := fun _ _ _ _ => .error (.other "connection refused")
  podLogCall := fun _ _ _ _ _ => .error (.other "connection refused")
  sanitize := id

/-- A backend on which no dynamic method name exists (every `getattr` raises
`AttributeError`). -/
def noMethodBackend : Backend where
  hasAttr := fun _ _ => false
  listCall := fun _ _ _ => .error (.attributeError "no such method")
  readCall := fun _ _ _ _ => .error (.attributeError "no such method")
  podLogCall := fun _ _ _ _ _ => .error (.attributeError "no such method")
  sanitize := id

/-- Substring test: `strMentions s sub` holds when `sub` occurs contiguously in
`s`; used to state that an error message mentions a resource kind. -/
def strMentions (s sub : String) : Bool :=
  (List.range (s.data.length + 1)).any
    (fun i => (s.data.drop i).take sub.data.length == sub.data)

/-- Prefix test on strings, used for the fixed failure prefix of pod logs. -/
def strStartsWith (s p : String) : Bool :=
  s.data.take p.data.length == p.data

theorem pyLower_append (a c : String) : pyLower (a ++ c) = pyLower a ++ pyLower c := by
  apply String.ext
  simp [pyLower]

theorem strMentions_append_right (a c : String) : strMentions (a ++ c) c = true := by
  unfold strMentions
  apply List.any_eq_true.mpr
  refine ⟨a.data.length, List.mem_range.mpr ?_, ?_⟩
  · have : (a ++ c).data.length = a.data.length + c.data.length := by
      simp
    omega
  · have h1 : (a ++ c).data = a.data ++ c.data := by simp
    rw [h1, List.drop_left, List.take_length]
    exact beq_self_eq_true _

theorem strStartsWith_append (p c : String) : strStartsWith (p ++ c) p = true := by
  unfold strStartsWith
  have h1 : (p ++ c).data = p.data ++ c.data := by simp
  rw [h1, List.take_left]
  exact beq_self_eq_true _

/-- Every key of the registry is a fixed point of normalization (the keys are
lowercase, and the two that end in "s" — "ingress", "ingressclass" — are in
the table, so no stripping happens). -/
theorem normalize_fixes_registry_keys :
    ∀ p ∈ get_resource_mapping, normalize_resource_kind p.1 = p.1 := by decide

theorem mem_of_lookup_isSome {k : String} (h : (lookupMapping k).isSome = true) :
    ∃ p ∈ get_resource_mapping, p.1 = k := by
  unfold lookupMapping at h
  cases hf : get_resource_mapping.find? (fun p => p.1 == k) with
  | none => rw [hf] at h; simp at h
  | some p =>
    have hm := List.mem_of_find?_eq_some hf
    have hp := List.find?_some hf
    exact ⟨p, hm, by simpa using hp⟩

/-- Dispatch lemma: with a non-empty namespace and a normalized kind other than
"namespace", `get_resources` attempts only the `list_namespaced_*` method; when
that attribute is missing, the `AttributeError` is caught by the outer handler
and the result is the empty list, with no other backend interaction. -/
theorem get_resources_namespaced_attr_missing (b : Backend) (k ns : String)
    (g : ApiGroup) (rt : String)
    (hres : get_api_client_and_resource_type (normalize_resource_kind k) = some (g, rt))
    (hrk : normalize_resource_kind k ≠ "namespace") (hns : ns ≠ "")
    (hattr : b.hasAttr g ("list_namespaced_" ++ rt) = false) :
    get_resources true b k ns = (.ok [], [.getattrFail g ("list_namespaced_" ++ rt)]) := by
  unfold get_resources
  simp [hres, hrk, hns, hattr]

/-- Dispatch lemma: with a non-empty namespace and a normalized kind other than
"namespace", when the `list_namespaced_*` method exists it is invoked with the
given namespace, and it is the only backend interaction. -/
theorem get_resources_namespaced_attr_present (b : Backend) (k ns : String)
    (g : ApiGroup) (rt : String)
    (hres : get_api_client_and_resource_type (normalize_resource_kind k) = some (g, rt))
    (hrk : normalize_resource_kind k ≠ "namespace") (hns : ns ≠ "")
    (hattr : b.hasAttr g ("list_namespaced_" ++ rt) = true) :
    (get_resources true b k ns).2 =
      [.invoked (.list g ("list_namespaced_" ++ rt) (some ns))] := by
  unfold get_resources
  cases hc : b.listCall g ("list_namespaced_" ++ rt) (some ns) with
  | ok items => simp [hres, hrk, hns, hattr, hc]
  | error e => simp [hres, hrk, hns, hattr, hc]

/-- Dispatch lemma: with an empty namespace (or the "namespace" kind), when the
all-namespaces method is absent and the plain list method exists, the unscoped
list method is invoked after the failed attribute lookup. -/
theorem get_resources_all_namespaces_fallback (b : Backend) (k ns : String)
    (g : ApiGroup) (rt : String)
    (hres : get_api_client_and_resource_type (normalize_resource_kind k) = some (g, rt))
    (hcond : ns = "" ∨ normalize_resource_kind k = "namespace")
    (hattrAll : b.hasAttr g ("list_" ++ rt ++ "_for_all_namespaces") = false)
    (hattrPlain : b.hasAttr g ("list_" ++ rt) = true) :
    (get_resources true b k ns).2 =
      [.getattrFail g ("list_" ++ rt ++ "_for_all_namespaces"),
       .invoked (.list g ("list_" ++ rt) none)] := by
  unfold get_resources
  have hc : ¬(ns ≠ "" ∧ normalize_resource_kind k ≠ "namespace") := by
    rcases hcond with h | h <;> simp [h]
  cases hl : b.listCall g ("list_" ++ rt) none with
  | ok items => simp [hres, hc, hattrAll, hattrPlain, hl]
  | error e => simp [hres, hc, hattrAll, hattrPlain, hl]

/-- Dispatch lemma: for a normalized kind other than "namespace",
`describe_resource` attempts only the `read_namespaced_*` method; when that
attribute is missing the result is the failure error document. -/
theorem describe_resource_attr_missing (b : Backend) (k name ns : String)
    (g : ApiGroup) (rt : String)
    (hres : get_api_client_and_resource_type (normalize_resource_kind k) = some (g, rt))
    (hrk : normalize_resource_kind k ≠ "namespace")
    (hattr : b.hasAttr g ("read_namespaced_" ++ rt) = false) :
    describe_resource true b k name ns =
      (.ok (describeErrorDoc (normalize_resource_kind k) name
              ("object has no attribute " ++ ("read_namespaced_" ++ rt))),
       [.getattrFail g ("read_namespaced_" ++ rt)]) := by
  unfold describe_resource
  simp [hres, hrk, hattr]

/-- Dispatch lemma: for a normalized kind other than "namespace", when the
`read_namespaced_*` method exists it is invoked with (name, namespace) and is
the only backend interaction. -/
theorem describe_resource_attr_present (b : Backend) (k name ns : String)
    (g : ApiGroup) (rt : String)
    (hres : get_api_client_and_resource_type (normalize_resource_kind k) = some (g, rt))
    (hrk : normalize_resource_kind k ≠ "namespace")
    (hattr : b.hasAttr g ("read_namespaced_" ++ rt) = true) :
    (describe_resource true b k name ns).2 =
      [.invoked (.read g ("read_namespaced_" ++ rt) name (some ns))] := by
  unfold describe_resource
  cases hc : b.readCall g ("read_namespaced_" ++ rt) name (some ns) with
  | ok r => simp [hres, hrk, hattr, hc]
  | error e => simp [hres, hrk, hattr, hc]

/-- Dispatch lemma: for the "namespace" kind, `describe_resource` invokes the
unscoped `read_namespace` method (no namespace argument). -/
theorem describe_resource_namespace_kind (b : Backend) (k name ns : String)
    (hrk : normalize_resource_kind k = "namespace")
    (hattr : b.hasAttr .core "read_namespace" = true) :
    (describe_resource true b k name ns).2 =
      [.invoked (.read .core "read_namespace" name none)] := by
  unfold describe_resource
  have hres : get_api_client_and_resource_type "namespace" =
      some (.core, "namespace") := by decide
  have happ : ("read_" : String) ++ "namespace" = "read_namespace" := rfl
  cases hc : b.readCall .core "read_namespace" name none with
  | ok r => simp [hres, hrk, happ, hattr, hc]
  | error e => simp [hres, hrk, happ, hattr, hc]

/-- C2: for every input string, the code's resolution
(`_get_api_client_and_resource_type`, which lowercases, conditionally strips
one trailing "s", and looks up) computes exactly the procedure the spec states
step by step: lowercase; look up in the canonical table; if absent and the
string ends with "s", strip exactly one trailing "s" and look up again; if
still absent, return no descriptor. -/
theorem c2_resolution_follows_spec_steps (s : String) :
    get_api_client_and_resource_type s = resolveSpec s := by
  unfold get_api_client_and_resource_type resolveSpec normalize_resource_kind containsKey
  cases h : lookupMapping (pyLower s) with
  | some d => simp [h]
  | none =>
    cases he : pyEndsWithS (pyLower s) with
    | true => simp [h, he]
    | false => simp [h, he]

/-- C3: normalization is idempotent on every known kind string (any string
whose normalization is a registry key), and in particular every key of the
registry table is returned unchanged by normalization. -/
theorem c3_normalization_idempotent :
    (∀ x, (lookupMapping (normalize_resource_kind x)).isSome = true →
       normalize_resource_kind (normalize_resource_kind x) = normalize_resource_kind x) ∧
    (∀ k, containsKey k = true → normalize_resource_kind k = k) := by
  constructor
  · intro x h
    obtain ⟨p, hp, hk⟩ := mem_of_lookup_isSome h
    have h2 := normalize_fixes_registry_keys p hp
    rw [hk] at h2
    exact h2
  · intro k hk
    unfold containsKey at hk
    obtain ⟨p, hp, hk2⟩ := mem_of_lookup_isSome hk
    have h2 := normalize_fixes_registry_keys p hp
    rw [hk2] at h2
    exact h2

theorem c3_normalization_idempotent_witness :
    (lookupMapping (normalize_resource_kind "Pods")).isSome = true ∧
    normalize_resource_kind (normalize_resource_kind "Pods") = normalize_resource_kind "Pods" ∧
    containsKey "pod" = true ∧
    normalize_resource_kind "pod" = "pod" :=
  ⟨by decide, c3_normalization_idempotent.1 "Pods" (by decide), by decide,
   c3_normalization_idempotent.2 "pod" (by decide)⟩

/-- C4: for a kind that does not resolve even after normalization,
`get_resources` returns the empty list (for every namespace argument, without
raising), and `describe_resource` returns an error document whose message is
the code's `"Unsupported resource kind: <kind>"` — case-insensitively equal to
the spec's rendering `"unsupported resource kind: <kind>"` — and which
mentions the kind. -/
theorem c4_unknown_kind_soft_fail (b : Backend) (k name nsp ns2 : String)
    (hfail : get_api_client_and_resource_type (normalize_resource_kind k) = none) :
    (get_resources true b k ns2).1 = .ok [] ∧
    (describe_resource true b k name nsp).1 =
      .ok (.obj [("error",
        .str ("Unsupported resource kind: " ++ normalize_resource_kind k))]) ∧
    pyLower ("Unsupported resource kind: " ++ normalize_resource_kind k) =
      pyLower ("unsupported resource kind: " ++ normalize_resource_kind k) ∧
    strMentions ("Unsupported resource kind: " ++ normalize_resource_kind k)
      (normalize_resource_kind k) = true := by
  refine ⟨?_, ?_, ?_, strMentions_append_right _ _⟩
  · unfold get_resources
    simp [hfail]
  · unfold describe_resource
    simp [hfail]
  · rw [pyLower_append, pyLower_append]
    have : pyLower "Unsupported resource kind: " = pyLower "unsupported resource kind: " := by
      decide
    rw [this]

theorem c4_unknown_kind_soft_fail_witness :
    get_api_client_and_resource_type (normalize_resource_kind "frobnicator") = none ∧
    (get_resources true coreLikeBackend "frobnicator" "ns1").1 = .ok [] :=
  ⟨by decide,
   (c4_unknown_kind_soft_fail coreLikeBackend "frobnicator" "x" "default" "ns1"
      (by decide)).1⟩

/-- C10: for every unresolvable kind input, the error document produced by
`describe_resource` names the normalized form of the input (lowercased, with
one trailing "s" stripped); in particular the input "Frobnicators" yields a
message containing "frobnicator" and not the original string "Frobnicators". -/
theorem c10_error_names_normalized_kind (b : Backend) (k name nsp : String)
    (hfail : get_api_client_and_resource_type (normalize_resource_kind k) = none) :
    (describe_resource true b k name nsp).1 =
      .ok (.obj [("error",
        .str ("Unsupported resource kind: " ++ normalize_resource_kind k))]) ∧
    (∀ b' name' nsp', (describe_resource true b' "Frobnicators" name' nsp').1 =
      .ok (.obj [("error", .str "Unsupported resource kind: frobnicator")])) ∧
    strMentions "Unsupported resource kind: frobnicator" "frobnicator" = true ∧
    strMentions "Unsupported resource kind: frobnicator" "Frobnicators" = false := by
  refine ⟨?_, fun b' name' nsp' => rfl, by decide, by decide⟩
  unfold describe_resource
  simp [hfail]

theorem c10_error_names_normalized_kind_witness :
    get_api_client_and_resource_type (normalize_resource_kind "Widgets") = none ∧
    (describe_resource true coreLikeBackend "Widgets" "x" "default").1 =
      .ok (.obj [("error",
        .str ("Unsupported resource kind: " ++ normalize_resource_kind "Widgets"))]) :=
  ⟨by decide,
   (c10_error_names_normalized_kind coreLikeBackend "Widgets" "x" "default" (by decide)).1⟩

/-- C1, counterexample: against a backend with the real method surface
(cluster-scoped types have no namespaced variants), kind "node" with the
non-empty namespace "ns1" makes `get_resources` attempt the namespaced-list
method name and never invoke the unscoped `list_node`; the result is the empty
list, not the node list.  `describe_resource` for "node" likewise attempts
`read_namespaced_node` and never invokes the unscoped `read_node`.  This
refutes the claim that for "node" and "persistentvolume" every namespace value
leads to the unscoped path. -/
theorem c1_cluster_scoped_counterexample :
    (get_resources true coreLikeBackend "node" "ns1").2 =
      [.getattrFail .core "list_namespaced_node"] ∧
    Event.invoked (.list .core "list_node" none) ∉
      (get_resources true coreLikeBackend "node" "ns1").2 ∧
    (get_resources true coreLikeBackend "node" "ns1").1 = .ok [] ∧
    (describe_resource true coreLikeBackend "node" "n1" "default").2 =
      [.getattrFail .core "read_namespaced_node"] ∧
    Event.invoked (.read .core "read_node" "n1" none) ∉
      (describe_resource true coreLikeBackend "node" "n1" "default").2 := by
  refine ⟨by decide, by decide, rfl, by decide, by decide⟩

/-- C1, amended: only the kind "namespace" is special-cased by the code.  For
any backend lacking the all-namespaces and namespaced variants of the
cluster-scoped types (as the real API client does): the "namespace" kind uses
the unscoped list (after the failed all-namespaces attribute lookup) and the
unscoped read for every namespace argument; "node" and "persistentvolume"
reach the unscoped list only when the namespace argument is empty — with a
non-empty namespace the namespaced-list name is attempted and the call
soft-fails to the empty list — and their describe path always attempts the
read-namespaced method, never the unscoped read. -/
theorem c1_cluster_scoped_amended (b : Backend) (ns name : String) (hns : ns ≠ "")
    (h1 : b.hasAttr .core "list_namespaced_node" = false)
    (h2 : b.hasAttr .core "list_namespaced_persistent_volume" = false)
    (h3 : b.hasAttr .core "list_namespace_for_all_namespaces" = false)
    (h4 : b.hasAttr .core "list_node_for_all_namespaces" = false)
    (h5 : b.hasAttr .core "list_persistent_volume_for_all_namespaces" = false)
    (h6 : b.hasAttr .core "list_node" = true)
    (h7 : b.hasAttr .core "list_persistent_volume" = true)
    (h8 : b.hasAttr .core "list_namespace" = true)
    (h9 : b.hasAttr .core "read_namespaced_node" = false)
    (h10 : b.hasAttr .core "read_namespaced_persistent_volume" = false)
    (h11 : b.hasAttr .core "read_namespace" = true) :
    (get_resources true b "namespace" ns).2 =
      [.getattrFail .core "list_namespace_for_all_namespaces",
       .invoked (.list .core "list_namespace" none)] ∧
    (describe_resource true b "namespace" name ns).2 =
      [.invoked (.read .core "read_namespace" name none)] ∧
    (get_resources true b "node" ns).2 = [.getattrFail .core "list_namespaced_node"] ∧
    (get_resources true b "node" ns).1 = .ok [] ∧
    (get_resources true b "persistentvolume" ns).2 =
      [.getattrFail .core "list_namespaced_persistent_volume"] ∧
    (get_resources true b "persistentvolume" ns).1 = .ok [] ∧
    (get_resources true b "node" "").2 =
      [.getattrFail .core "list_node_for_all_namespaces",
       .invoked (.list .core "list_node" none)] ∧
    (get_resources true b "persistentvolume" "").2 =
      [.getattrFail .core "list_persistent_volume_for_all_namespaces",
       .invoked (.list .core "list_persistent_volume" none)] ∧
    (describe_resource true b "node" name ns).2 =
      [.getattrFail .core "read_namespaced_node"] ∧
    (describe_resource true b "persistentvolume" name ns).2 =
      [.getattrFail .core "read_namespaced_persistent_volume"] := by
  refine ⟨?_, ?_, ?_, ?_, ?_, ?_, ?_, ?_, ?_, ?_⟩
  · exact get_resources_all_namespaces_fallback b "namespace" ns .core "namespace"
      (by decide) (Or.inr (by decide)) h3 h8
  · exact describe_resource_namespace_kind b "namespace" name ns (by decide) h11
  · exact congrArg Prod.snd (get_resources_namespaced_attr_missing b "node" ns .core "node"
      (by decide) (by decide) hns h1)
  · exact congrArg Prod.fst (get_resources_namespaced_attr_missing b "node" ns .core "node"
      (by decide) (by decide) hns h1)
  · exact congrArg Prod.snd (get_resources_namespaced_attr_missing b "persistentvolume" ns
      .core "persistent_volume" (by decide) (by decide) hns h2)
  · exact congrArg Prod.fst (get_resources_namespaced_attr_missing b "persistentvolume" ns
      .core "persistent_volume" (by decide) (by decide) hns h2)
  · exact get_resources_all_namespaces_fallback b "node" "" .core "node"
      (by decide) (Or.inl rfl) h4 h6
  · exact get_resources_all_namespaces_fallback b "persistentvolume" "" .core
      "persistent_volume" (by decide) (Or.inl rfl) h5 h7
  · exact congrArg Prod.snd (describe_resource_attr_missing b "node" name ns .core "node"
      (by decide) (by decide) h9)
  · exact congrArg Prod.snd (describe_resource_attr_missing b "persistentvolume" name ns
      .core "persistent_volume" (by decide) (by decide) h10)

theorem c1_cluster_scoped_amended_witness :
    ("ns1" : String) ≠ "" ∧
    coreLikeBackend.hasAttr .core "list_namespaced_node" = false ∧
    coreLikeBackend.hasAttr .core "list_node" = true ∧
    (get_resources true coreLikeBackend "node" "ns1").2 =
      [.getattrFail .core "list_namespaced_node"] ∧
    (get_resources true coreLikeBackend "node" "").2 =
      [.getattrFail .core "list_node_for_all_namespaces",
       .invoked (.list .core "list_node" none)] ∧
    (describe_resource true coreLikeBackend "node" "n1" "ns1").2 =
      [.getattrFail .core "read_namespaced_node"] := by
  have h := c1_cluster_scoped_amended coreLikeBackend "ns1" "n1" (by decide)
    rfl rfl rfl rfl rfl rfl rfl rfl rfl rfl rfl
  exact ⟨by decide, rfl, rfl, h.2.2.1, h.2.2.2.2.2.2.1, h.2.2.2.2.2.2.2.2.1⟩

/-- C5: with a non-empty namespace and a resolvable kind whose descriptor is
not the "namespace" type, `get_resources` invokes the namespaced-list method
scoped to that namespace (when the method exists), and never invokes any
all-namespaces list method. -/
theorem c5_namespaced_dispatch_priority (b : Backend) (k ns : String)
    (g : ApiGroup) (rt : String)
    (hres : get_api_client_and_resource_type (normalize_resource_kind k) = some (g, rt))
    (hrt : rt ≠ "namespace") (hns : ns ≠ "") :
    (b.hasAttr g ("list_namespaced_" ++ rt) = true →
      (get_resources true b k ns).2 =
        [.invoked (.list g ("list_namespaced_" ++ rt) (some ns))]) ∧
    (∀ g' m, Event.invoked (.list g' m none) ∉ (get_resources true b k ns).2) := by
  have hrk : normalize_resource_kind k ≠ "namespace" := by
    intro hk
    rw [hk] at hres
    have h3 : (some (ApiGroup.core, "namespace") : Option (ApiGroup × String)) =
        some (g, rt) := by
      rw [← hres]; decide
    injection h3 with h4
    exact hrt (congrArg Prod.snd h4).symm
  constructor
  · intro hattr
    exact get_resources_namespaced_attr_present b k ns g rt hres hrk hns hattr
  · intro g' m
    cases hb : b.hasAttr g ("list_namespaced_" ++ rt) with
    | true =>
      rw [get_resources_namespaced_attr_present b k ns g rt hres hrk hns hb]
      simp
    | false =>
      rw [congrArg Prod.snd (get_resources_namespaced_attr_missing b k ns g rt hres hrk hns hb)]
      simp

theorem c5_namespaced_dispatch_priority_witness :
    get_api_client_and_resource_type (normalize_resource_kind "pod") =
      some (.core, "pod") ∧
    ("pod" : String) ≠ "namespace" ∧ ("ns1" : String) ≠ "" ∧
    coreLikeBackend.hasAttr .core "list_namespaced_pod" = true ∧
    (get_resources true coreLikeBackend "pod" "ns1").2 =
      [.invoked (.list .core "list_namespaced_pod" (some "ns1"))] :=
  ⟨by decide, by decide, by decide, rfl,
   (c5_namespaced_dispatch_priority coreLikeBackend "pod" "ns1" .core "pod"
      (by decide) (by decide) (by decide)).1 rfl⟩

/-- C6: when the client is connected, every backend invocation failure during
`get_resources` — whether the method exists but the call raises
(network/auth style), or the dynamically built method name does not exist —
is caught and yields the empty list, for every kind and namespace.  But the
claim's startup clause is a code bug: when connection setup failed at startup,
the API attributes were never assigned, and `get_resources` dereferences them
through `_normalize_resource_kind` before its `try` block, so the call raises
`AttributeError` instead of returning an empty sequence. -/
theorem c6_list_soft_fail_and_startup_bug :
    (∀ k ns, (get_resources true failingCallBackend k ns).1 = .ok []) ∧
    (∀ k ns, (get_resources true noMethodBackend k ns).1 = .ok []) ∧
    (get_resources false failingCallBackend "pod" "").1 =
      .error (.attributeError "KubeClient object has no attribute core_v1_api") := by
  refine ⟨?_, ?_, rfl⟩
  · intro k ns
    unfold get_resources
    cases hres : get_api_client_and_resource_type (normalize_resource_kind k) with
    | none => simp [hres]
    | some p =>
      obtain ⟨g, rt⟩ := p
      by_cases hc : ns ≠ "" ∧ normalize_resource_kind k ≠ "namespace"
      · simp [hres, hc, failingCallBackend]
      · simp [hres, hc, failingCallBackend]
  · intro k ns
    unfold get_resources
    cases hres : get_api_client_and_resource_type (normalize_resource_kind k) with
    | none => simp [hres]
    | some p =>
      obtain ⟨g, rt⟩ := p
      by_cases hc : ns ≠ "" ∧ normalize_resource_kind k ≠ "namespace"
      · simp [hres, hc, noMethodBackend]
      · simp [hres, hc, noMethodBackend]

/-- C7: `get_pod_logs` at the Python defaults (container=None,
namespace="default", tail_lines=100) invokes the backend log-retrieval
operation for pod "p1" with namespace "default", no container filter,
pretty=True and tail_lines=100 — whatever the backend returns. -/
theorem c7_pod_logs_defaults (b : Backend) :
    (get_pod_logs true b "p1" none "default" 100).2 =
      [.invoked (.podLog "p1" "default" none true 100)] := by
  unfold get_pod_logs
  cases hc : b.podLogCall "p1" "default" none true 100 with
  | ok logs => simp [hc]
  | error e => simp [hc]

/-- Every connected `describe_resource` call returns a value (never propagates
a raised backend exception). -/
theorem describe_resource_total (b : Backend) (k name ns : String) :
    ((describe_resource true b k name ns).1).isOk = true := by
  unfold describe_resource
  cases hres : get_api_client_and_resource_type (normalize_resource_kind k) with
  | none => simp [hres, Except.isOk, Except.toBool]
  | some p =>
    obtain ⟨g, rt⟩ := p
    by_cases hk : normalize_resource_kind k = "namespace"
    · have hres2 : get_api_client_and_resource_type "namespace" =
          some (.core, "namespace") := by decide
      rw [hk, hres2] at hres
      injection hres with h4
      have hg : ApiGroup.core = g := congrArg Prod.fst h4
      have hrt : ("namespace" : String) = rt := congrArg Prod.snd h4
      subst hg
      subst hrt
      by_cases ha : b.hasAttr .core "read_namespace" = true
      · cases hc : b.readCall .core "read_namespace" name none with
        | ok r => simp [hk, hres2, ha, hc, Except.isOk, Except.toBool]
        | error e => simp [hk, hres2, ha, hc, Except.isOk, Except.toBool]
      · simp [hk, hres2, ha, Except.isOk, Except.toBool]
    · by_cases ha : b.hasAttr g ("read_namespaced_" ++ rt) = true
      · cases hc : b.readCall g ("read_namespaced_" ++ rt) name (some ns) with
        | ok r => simp [hres, hk, ha, hc, Except.isOk, Except.toBool]
        | error e => simp [hres, hk, ha, hc, Except.isOk, Except.toBool]
      · simp [hres, hk, ha, Except.isOk, Except.toBool]

/-- C8: when the backend read fails during `describe_resource` (for any kind,
name and namespace), the result is an error document whose message is the
code's `"Failed to describe <kind> <name>: <cause>"` — case-insensitively
equal to the spec's rendering — and the operation never propagates a raw
backend exception: it always returns a document. -/
theorem c8_describe_failure_error_document (b : Backend) (k name nsp : String)
    (g : ApiGroup) (rt : String) (e : PyErr)
    (hres : get_api_client_and_resource_type (normalize_resource_kind k) = some (g, rt))
    (hrk : normalize_resource_kind k ≠ "namespace")
    (hattr : b.hasAttr g ("read_namespaced_" ++ rt) = true)
    (hfailc : b.readCall g ("read_namespaced_" ++ rt) name (some nsp) = .error e) :
    (describe_resource true b k name nsp).1 =
      .ok (describeErrorDoc (normalize_resource_kind k) name e.str) ∧
    pyLower ("Failed to describe " ++ normalize_resource_kind k ++ " " ++ name
        ++ ": " ++ e.str) =
      pyLower ("failed to describe " ++ normalize_resource_kind k ++ " " ++ name
        ++ ": " ++ e.str) ∧
    (∀ b' n' ns' e', b'.hasAttr .core "read_namespace" = true →
        b'.readCall .core "read_namespace" n' none = .error e' →
        (describe_resource true b' "namespace" n' ns').1 =
          .ok (describeErrorDoc "namespace" n' e'.str)) ∧
    (∀ b' k' n' ns', ((describe_resource true b' k' n' ns').1).isOk = true) := by
  refine ⟨?_, ?_, ?_, fun b' k' n' ns' => describe_resource_total b' k' n' ns'⟩
  · unfold describe_resource
    simp [hres, hrk, hattr, hfailc]
  · simp only [pyLower_append]
    rw [show pyLower "Failed to describe " = pyLower "failed to describe " from by decide]
  · intro b' n' ns' e' hattr' hfail'
    unfold describe_resource
    have hres' : get_api_client_and_resource_type "namespace" =
        some (.core, "namespace") := by decide
    have hrk' : normalize_resource_kind "namespace" = "namespace" := by decide
    have happ : ("read_" : String) ++ "namespace" = "read_namespace" := rfl
    simp [hres', hrk', happ, hattr', hfail']

theorem c8_describe_failure_error_document_witness :
    get_api_client_and_resource_type (normalize_resource_kind "Deployment") =
      some (.apps, "deployment") ∧
    normalize_resource_kind "Deployment" ≠ "namespace" ∧
    failingCallBackend.hasAttr .apps "read_namespaced_deployment" = true ∧
    failingCallBackend.readCall .apps "read_namespaced_deployment" "web" (some "team-a") =
      .error (.other "connection refused") ∧
    (describe_resource true failingCallBackend "Deployment" "web" "team-a").1 =
      .ok (describeErrorDoc (normalize_resource_kind "Deployment") "web"
             (PyErr.str (.other "connection refused"))) :=
  ⟨by decide, by decide, rfl, rfl,
   (c8_describe_failure_error_document failingCallBackend "Deployment" "web" "team-a"
      .apps "deployment" (.other "connection refused") (by decide) (by decide)
      rfl rfl).1⟩

/-- C9: whenever the backend log retrieval fails, `get_pod_logs` returns the
in-band failure string — non-empty, and starting with the fixed prefix
"Failed to get logs: " — for every pod name, namespace, container and tail
limit, instead of raising or returning an empty value. -/
theorem c9_pod_logs_failure_string (b : Backend) (pod nsp : String)
    (container : Option String) (tl : Int) (e : PyErr)
    (hfailc : b.podLogCall pod nsp container true tl = .error e) :
    (get_pod_logs true b pod container nsp tl).1 = "Failed to get logs: " ++ e.str ∧
    strStartsWith (get_pod_logs true b pod container nsp tl).1
      "Failed to get logs: " = true ∧
    (get_pod_logs true b pod container nsp tl).1 ≠ "" := by
  have h1 : (get_pod_logs true b pod container nsp tl).1 =
      "Failed to get logs: " ++ e.str := by
    unfold get_pod_logs
    simp [hfailc]
  refine ⟨h1, ?_, ?_⟩
  · rw [h1]; exact strStartsWith_append _ _
  · rw [h1]
    intro h
    have hd := congrArg String.data h
    rw [show ("Failed to get logs: " ++ e.str).data =
        "Failed to get logs: ".data ++ e.str.data from by simp] at hd
    rw [show ("" : String).data = [] from rfl] at hd
    rcases List.append_eq_nil.mp hd with ⟨h2, -⟩
    exact absurd h2 (by decide)

theorem c9_pod_logs_failure_string_witness :
    failingCallBackend.podLogCall "p1" "default" none true 100 =
      .error (.other "connection refused") ∧
    (get_pod_logs true failingCallBackend "p1" none "default" 100).1 =
      "Failed to get logs: " ++ PyErr.str (.other "connection refused") :=
  ⟨rfl,
   (c9_pod_logs_failure_string failingCallBackend "p1" "default" none 100
      (.other "connection refused") rfl).1⟩

example : normalize_resource_kind "Pods" = "pod" := by decide
example : normalize_resource_kind "pod" = "pod" := by decide
example : normalize_resource_kind "ingress" = "ingress" := by decide
example : normalize_resource_kind "Frobnicators" = "frobnicator" := by decide
example : get_api_client_and_resource_type "node" = some (.core, "node") := by decide
example : get_api_client_and_resource_type "frobnicator" = none := by decide

end D6r
